import Mathlib

/-!
Verification development for the rentpilot repository.

The Python sources are shallowly embedded: dictionaries with known keys become
structures with `Option` fields (`none` models an absent key), JSON numbers are
modelled as rationals, Python exceptions surface as `Except PyErr`, and the
dynamically-typed envelope consumed by the orchestrator verifier is modelled by
an explicit JSON value type.  Python `round` is round-half-even, `int` truncates
toward zero; both are modelled explicitly below.
-/

namespace RentPilot

/-- Python `int(x)` on a finite numeric value: truncation toward zero. -/
def pyInt (q : ℚ) : ℤ := if 0 ≤ q then ⌊q⌋ else ⌈q⌉

/-- Python round-half-even to an integer (`round(x)`). -/
def rhe (q : ℚ) : ℤ :=
  if q - ⌊q⌋ < 1/2 then ⌊q⌋
  else if 1/2 < q - ⌊q⌋ then ⌊q⌋ + 1
  else if ⌊q⌋ % 2 = 0 then ⌊q⌋ else ⌊q⌋ + 1

/-- Python `round(x, k)`: round-half-even at `k` decimal places. -/
def roundTo (k : ℕ) (q : ℚ) : ℚ := (rhe (q * 10 ^ k) : ℚ) / 10 ^ k

theorem rhe_nonneg {q : ℚ} (h : 0 ≤ q) : 0 ≤ rhe q := by
  have hf : (0 : ℤ) ≤ ⌊q⌋ := Int.floor_nonneg.mpr h
  unfold rhe
  split_ifs <;> omega

theorem rhe_nonpos {q : ℚ} (h : q ≤ 0) : rhe q ≤ 0 := by
  have hf : ⌊q⌋ ≤ 0 := by
    have := Int.floor_le_floor (α := ℚ) h
    simpa using this
  have hfl : (⌊q⌋ : ℚ) ≤ q := Int.floor_le q
  have key : ¬(q - ⌊q⌋ < 1/2) → ⌊q⌋ + 1 ≤ 0 := by
    intro h1
    have hq : (⌊q⌋ : ℚ) ≤ -1/2 := by linarith
    have hq0 : (⌊q⌋ : ℚ) < 0 := lt_of_le_of_lt hq (by norm_num)
    have hneg : ⌊q⌋ < 0 := by exact_mod_cast hq0
    omega
  unfold rhe
  split_ifs with h1 h2 h3
  · exact hf
  · exact key h1
  · exact hf
  · exact key h1

theorem roundTo_nonneg {q : ℚ} (k : ℕ) (h : 0 ≤ q) : 0 ≤ roundTo k q := by
  unfold roundTo
  apply div_nonneg
  · exact_mod_cast rhe_nonneg (mul_nonneg h (by positivity))
  · positivity

theorem roundTo_nonpos {q : ℚ} (k : ℕ) (h : q ≤ 0) : roundTo k q ≤ 0 := by
  unfold roundTo
  apply div_nonpos_of_nonpos_of_nonneg
  · exact_mod_cast rhe_nonpos (mul_nonpos_of_nonpos_of_nonneg h (by positivity))
  · positivity

theorem roundTo_zero (k : ℕ) : roundTo k 0 = 0 := by
  unfold roundTo rhe
  norm_num

/-- Python `str.strip()` for ASCII whitespace. -/
def pyStrip (s : String) : String :=
  String.mk (((s.data.dropWhile Char.isWhitespace).reverse.dropWhile Char.isWhitespace).reverse)

/-- One step of Python `str.title()`: the boolean tracks whether the previous
character was alphabetic. -/
def pyTitleChars : Bool → List Char → List Char
  | _, [] => []
  | prevAlpha, c :: cs =>
    (if c.isAlpha then (if prevAlpha then c.toLower else c.toUpper) else c) ::
      pyTitleChars c.isAlpha cs

/-- Python `str.title()` (ASCII fragment). -/
def pyTitle (s : String) : String := String.mk (pyTitleChars false s.data)

/-- Python `str.lower()` (ASCII fragment). -/
def pyLower (s : String) : String := String.mk (s.data.map Char.toLower)

/-- `providers.housing_data.city_key`: `str(city or "").strip().title()`. -/
def city_key (c : String) : String := pyTitle (pyStrip c)

/-- First-match lookup in an association list, as in a Python dict with string
keys (keys are unique in the JSON snapshots). -/
def dlookup {β : Type} : List (String × β) → String → Option β
  | [], _ => none
  | (k, v) :: rest, key => if k = key then some v else dlookup rest key

/-- Dataset `meta` object; absent keys are defaulted at use sites. -/
structure Meta where
  currency : Option String
  snapshot_month : Option String
  version : Option String
deriving DecidableEq

/-- One neighbourhood row of the snapshot.  `median` maps a property type to a
monthly median; `transit`/`distance_km` are `none` when the key is absent. -/
structure Nbhd where
  name : String
  median : List (String × ℚ)
  transit : Option ℚ
  distance_km : Option ℚ
deriving DecidableEq

/-- One city record of the snapshot. -/
structure CityRec where
  medians : List (String × ℚ)
  neighbourhoods : List Nbhd
deriving DecidableEq

/-- The loaded JSON snapshot (`providers.housing_data._load_json`). -/
structure Dataset where
  meta : Meta
  cities : List (String × CityRec)
deriving DecidableEq

/-- `(prop or "1bed").lower()` as applied to a property-type string. -/
def strNorm (s : String) : String := pyLower (if s = "" then "1bed" else s)

/-- `(body.get("property_type", "1bed") or "1bed").lower()`. -/
def propNorm (o : Option String) : String := strNorm (o.getD "1bed")

/-- `providers.housing_data.get_city_obj`. -/
def getCityObj (ds : Dataset) (city : String) : Option CityRec :=
  dlookup ds.cities (city_key city)

/-- `providers.housing_data.get_city_median`. -/
def get_city_median (ds : Dataset) (city : String) (prop : String) : Option ℚ :=
  match getCityObj ds city with
  | none => none
  | some c => dlookup c.medians (strNorm prop)

/-- `providers.housing_data.list_neighbourhoods`. -/
def list_neighbourhoods (ds : Dataset) (city : String) : List Nbhd :=
  match getCityObj ds city with
  | none => []
  | some c => c.neighbourhoods

/-- `providers.housing_data.get_neighbourhood_median`. -/
def get_neighbourhood_median (row : Nbhd) (prop : String) : Option ℚ :=
  dlookup row.median (strNorm prop)

/-- `providers.housing_data.normalize_transit` on a numeric raw value:
clamp to `[0, 100]` then round half-even.  (`none` models a missing or
non-numeric raw value, which yields Python `None`.) -/
def normalize_transit (x : Option ℚ) : Option ℤ :=
  match x with
  | none => none
  | some v => some (rhe (max 0 (min 100 v)))

/-- `providers.housing_data.get_neighbourhood_transit` with default `d`. -/
def get_neighbourhood_transit (row : Nbhd) (d : ℤ) : ℤ :=
  match normalize_transit (some (row.transit.getD d)) with
  | some n => n
  | none => max 0 (min 100 d)

/-- `providers.housing_data.supported_property_types`. -/
def supported_property_types : List String := ["studio", "1bed", "2bed", "3bed"]

end RentPilot

namespace RentPilot.Afford

/-- `_MARKET_BAND` in `evaluate_rent_affordability.py`. -/
def MARKET_BAND : ℚ := 2/100

/-- `_RATIO_TOL` in `evaluate_rent_affordability.py`. -/
def RATIO_TOL : ℚ := 2/100

/-- `above_market = delta_pct > _MARKET_BAND`. -/
def above_market (d : ℚ) : Bool := decide (MARKET_BAND < d)

/-- `below_market = delta_pct < -_MARKET_BAND`. -/
def below_market (d : ℚ) : Bool := decide (d < -MARKET_BAND)

/-- `near_market = not above_market and not below_market`. -/
def near_market (d : ℚ) : Bool := !above_market d && !below_market d

/-- `above_target = rti > (target_ratio + _RATIO_TOL)`. -/
def above_target (r t : ℚ) : Bool := decide (t + RATIO_TOL < r)

/-- `below_target = rti < (target_ratio - _RATIO_TOL)`. -/
def below_target (r t : ℚ) : Bool := decide (r < t - RATIO_TOL)

/-- `near_target = not above_target and not below_target`. -/
def near_target (r t : ℚ) : Bool := !above_target r t && !below_target r t

/-- `lambdas.evaluate_rent_affordability._make_verdict`. -/
def make_verdict (d r t : ℚ) : String :=
  if above_market d && above_target r t then "Above market and above target ratio"
  else if above_market d && near_target r t then "Above market; near target ratio"
  else if near_market d && above_target r t then "Near market; above target ratio"
  else if below_market d && below_target r t then "Below market and below target ratio"
  else if below_market d && near_target r t then "Below market; near target ratio"
  else if near_market d && below_target r t then "Near market; below target ratio"
  else "Near market and near target ratio"

/-- The seven fixed verdict strings. -/
def verdicts : List String :=
  ["Above market and above target ratio", "Above market; near target ratio",
   "Near market; above target ratio", "Below market and below target ratio",
   "Below market; near target ratio", "Near market; below target ratio",
   "Near market and near target ratio"]

/-- Request body of the affordability lambda (absent and null keys collapse to
`none`; `_safe_float` turns both into the per-field default). -/
structure Body where
  listing_price : Option ℚ
  city_median : Option ℚ
  income_annual : Option ℚ
  target_ratio : Option ℚ
deriving DecidableEq

/-- Structured response of `evaluate_rent_affordability.lambda_handler`:
`invalidInput` is the 400 body, `ok` the 200 body. -/
inductive Result where
  | invalidInput (listing city_median income : ℚ)
  | ok (delta_pct rti : ℚ) (verdict : String)
deriving DecidableEq

/-- `lambdas.evaluate_rent_affordability.lambda_handler` (direct-dict event). -/
def lambda_handler (body : Body) : Result :=
  let listing := body.listing_price.getD 0
  let cm := body.city_median.getD 0
  let inc := body.income_annual.getD 0
  let tgt := body.target_ratio.getD (3/10)
  if listing ≤ 0 ∨ cm ≤ 0 ∨ inc ≤ 0 then .invalidInput listing cm inc
  else
    let delta := (listing - cm) / cm
    let rti := listing / (inc / 12)
    .ok (roundTo 4 delta) (roundTo 4 rti) (make_verdict delta rti tgt)

end RentPilot.Afford

namespace RentPilot.Suggest

/-- `FTA_W_AFFORD` default. -/
def W_AFF : ℚ := 5/10

/-- `FTA_W_TRANSIT` default. -/
def W_TRN : ℚ := 3/10

/-- `FTA_W_DIST` default. -/
def W_DST : ℚ := 2/10

/-- User preferences as they arrive in the request: for each key, `none` is an
absent key, `some none` an explicit JSON null, `some (some q)` a number. -/
structure Prefs where
  max_distance_km : Option (Option ℚ)
  min_transit : Option (Option ℚ)
  target_rent_to_income : Option (Option ℚ)
deriving DecidableEq

/-- Request body of the recommender lambda. -/
structure Body where
  city : Option String
  property_type : Option String
  income_annual : Option ℚ
  prefs : Option Prefs
  listing_price : Option ℚ
  budget_cap : Option ℚ
deriving DecidableEq

/-- `max_dist = max(0.0, _safe_float(prefs.get("max_distance_km"), 15.0))`:
absent and null both fall to the `15.0` default. -/
def effMaxDist (p : Prefs) : ℚ :=
  max 0 (match p.max_distance_km with
         | some (some q) => q
         | _ => 15)

/-- `min_transit = int(_clamp(_safe_float(prefs.get("min_transit", 65)), 0, 100))`:
an absent key takes the dict-get default `65`; an explicit null reaches
`_safe_float(None)` which falls to `0.0`. -/
def effMinTransit (p : Prefs) : ℤ :=
  pyInt (max 0 (min 100 (match p.min_transit with
                         | none => (65 : ℚ)
                         | some none => 0
                         | some (some q) => q)))

/-- `target_rti = _safe_float(prefs.get("target_rent_to_income"), 0.30)`. -/
def effTargetRti (p : Prefs) : ℚ :=
  match p.target_rent_to_income with
  | some (some q) => q
  | _ => 3/10

/-- `_affordability_component`. -/
def affordability_component (rti target : ℚ) : ℚ :=
  if target ≤ 0 then 0
  else max 0 (min 1 (1 - max 0 (rti - target) / max target (1/100)))

/-- `_distance_component`. -/
def distance_component (distance_km max_distance_km : ℚ) : ℚ :=
  if max_distance_km ≤ 0 then 0
  else 1 - min (distance_km / max_distance_km) 1

/-- Modelled Python exceptions raised by the embedded fragments. -/
inductive PyErr where
  | keyError
  | typeError
  | attributeError
deriving DecidableEq

/-- The data content of the `_why` justification string: which messages are
emitted and the numbers interpolated into them. -/
structure Why where
  cheaper : Bool
  amount : ℤ
  min_transit_shown : ℤ
  meets_transit : Bool
  target_pct : ℤ
  at_or_below : Bool
deriving DecidableEq

/-- `_why(nei, rent_diff, rti, prefs)`.  Note that it reads the *raw* prefs:
`int(prefs.get("min_transit", 0))` and
`float(prefs.get("target_rent_to_income", 0.30))` raise `TypeError` on an
explicit null value. -/
def whyOf (prefs : Prefs) (n : Nbhd) (rent_diff rti : ℚ) : Except PyErr Why :=
  match (match prefs.min_transit with
         | none => Except.ok (0 : ℤ)
         | some none => Except.error PyErr.typeError
         | some (some q) => Except.ok (pyInt q)) with
  | .error e => .error e
  | .ok mtw =>
    match (match prefs.target_rent_to_income with
           | none => Except.ok ((3 : ℚ)/10)
           | some none => Except.error PyErr.typeError
           | some (some q) => Except.ok q) with
    | .error e => .error e
    | .ok tgtw =>
      .ok { cheaper := decide (rent_diff < 0)
          , amount := if rent_diff < 0 then pyInt |rent_diff| else pyInt rent_diff
          , min_transit_shown := mtw
          , meets_transit := decide (mtw ≤ pyInt (n.transit.getD 0))
          , target_pct := pyInt (tgtw * 100)
          , at_or_below := decide (rti ≤ tgtw) }

/-- One entry of the `recommendations` list built by the handler loop. -/
structure Row where
  name : String
  median : ℚ
  rent_diff_vs_listing : ℤ
  rent_to_income : ℚ
  transit : ℤ
  distance_km : ℚ
  score : ℚ
  why : Why
deriving DecidableEq

/-- The filtering/scoring loop of `suggest_neighbourhoods.lambda_handler`
(`for row in list_neighbourhoods(city): ...`), in list order. -/
def buildRows (prefs : Prefs) (maxDist : ℚ) (minTransit : ℤ) (targetRti incomeMonthly priceRef : ℚ)
    (prop : String) : List Nbhd → Except PyErr (List Row)
  | [] => .ok []
  | n :: ns =>
    match get_neighbourhood_median n prop with
    | none => buildRows prefs maxDist minTransit targetRti incomeMonthly priceRef prop ns
    | some med =>
      let transit := get_neighbourhood_transit n 0
      let dist := max 0 (n.distance_km.getD 0)
      if maxDist < dist ∨ transit < minTransit then
        buildRows prefs maxDist minTransit targetRti incomeMonthly priceRef prop ns
      else
        let rti := if 0 < incomeMonthly then med / incomeMonthly else 10 ^ 9
        if targetRti < rti then
          buildRows prefs maxDist minTransit targetRti incomeMonthly priceRef prop ns
        else
          let rent_diff := med - priceRef
          let score := W_AFF * affordability_component rti targetRti +
            W_TRN * max 0 (min 1 ((transit : ℚ) / 100)) +
            W_DST * distance_component dist maxDist
          match whyOf prefs n rent_diff rti,
              buildRows prefs maxDist minTransit targetRti incomeMonthly priceRef prop ns with
          | .error e, _ => .error e
          | .ok _, .error e => .error e
          | .ok w, .ok rest =>
            .ok ({ name := n.name
                 , median := med
                 , rent_diff_vs_listing := pyInt rent_diff
                 , rent_to_income := roundTo 3 rti
                 , transit := transit
                 , distance_km := dist
                 , score := roundTo 3 score
                 , why := w } :: rest)

/-- Successful (200) payload of the recommender. -/
structure Payload where
  city : String
  property_type : String
  source : String
  snapshot_month : String
  recommendations : List Row
  reason : Option String
deriving DecidableEq

/-- Structured response of the recommender: 404, 500 or 200. -/
inductive Result where
  | notFound (city : String)
  | internalError
  | success (p : Payload)
deriving DecidableEq

/-- Descending-by-score comparison used by `rows.sort(key=..., reverse=True)`;
Python's sort is stable, so it coincides with a stable insertion sort. -/
def scoreGe (a b : Row) : Prop := b.score ≤ a.score

instance : DecidableRel scoreGe := fun a b => inferInstanceAs (Decidable (b.score ≤ a.score))

/-- `lambdas.suggest_neighbourhoods.lambda_handler` (direct-dict event). -/
def lambda_handler (ds : Dataset) (body : Body) : Result :=
  let city := city_key (body.city.getD "Toronto")
  let prop := propNorm body.property_type
  let income_annual := body.income_annual.getD 80000
  let prefs := body.prefs.getD ⟨none, none, none⟩
  let maxDist := effMaxDist prefs
  let minTransit := effMinTransit prefs
  let targetRti := effTargetRti prefs
  let incomeMonthly := income_annual / 12
  let priceRef :=
    body.listing_price.getD (body.budget_cap.getD (roundTo 2 (incomeMonthly * targetRti)))
  match getCityObj ds city with
  | none => .notFound city
  | some _ =>
    match buildRows prefs maxDist minTransit targetRti incomeMonthly priceRef prop
        (list_neighbourhoods ds city) with
    | .error _ => .internalError
    | .ok rows =>
      let recs := (List.insertionSort scoreGe rows).take 3
      .success
        { city := city
        , property_type := prop
        , source := ds.meta.version.getD "static_json_v1"
        , snapshot_month := ds.meta.snapshot_month.getD "unknown"
        , recommendations := recs
        , reason := if recs.isEmpty then some "no_neighbourhood_passed_filters" else none }

/-- HTTP status of a recommender response. -/
def status : Result → ℤ
  | .notFound _ => 404
  | .internalError => 500
  | .success _ => 200

/-- The recommendations carried by a recommender response (empty on errors). -/
def recsOf : Result → List Row
  | .success p => p.recommendations
  | _ => []

end RentPilot.Suggest

namespace RentPilot.Rent

/-- Request body of `get_rent_data`. -/
structure Body where
  city : Option String
  property_type : Option String
  include_neighbourhoods : Option Bool
deriving DecidableEq

/-- 200 payload of `get_rent_data`. -/
structure Payload where
  city : String
  property_type : String
  median : ℚ
  currency : String
  source : String
  snapshot_month : String
  neighbourhoods : Option (List (String × ℚ))
deriving DecidableEq

/-- Structured response of `get_rent_data`: 404, 400 or 200. -/
inductive Result where
  | notFound (city : String)
  | unsupportedProp (prop : String) (supported : List String)
  | success (p : Payload)
deriving DecidableEq

/-- `lambdas.get_rent_data.lambda_handler` (direct-dict event). -/
def lambda_handler (ds : Dataset) (body : Body) : Result :=
  let city := city_key (body.city.getD "Toronto")
  let prop := propNorm body.property_type
  let include_neigh := body.include_neighbourhoods.getD true
  match getCityObj ds city with
  | none => .notFound city
  | some _ =>
    match get_city_median ds city prop with
    | none => .unsupportedProp prop supported_property_types
    | some m =>
      .success
        { city := city
        , property_type := prop
        , median := m
        , currency := ds.meta.currency.getD "CAD/month"
        , source := ds.meta.version.getD "static_json_v1"
        , snapshot_month := ds.meta.snapshot_month.getD "unknown"
        , neighbourhoods :=
            if include_neigh then
              some ((list_neighbourhoods ds city).filterMap fun row =>
                match get_neighbourhood_median row prop with
                | some med => some (row.name, med)
                | none => none)
            else none }

/-- HTTP status of a `get_rent_data` response. -/
def status : Result → ℤ
  | .notFound _ => 404
  | .unsupportedProp _ _ => 400
  | .success _ => 200

/-- The machine-readable `error` code of a `get_rent_data` response body. -/
def errorCode : Result → Option String
  | .notFound _ => some "city_not_found"
  | .unsupportedProp _ _ => some "unsupported_property_type"
  | .success _ => none

end RentPilot.Rent

namespace RentPilot.Stats

/-- Request body of `get_neighbourhood_stats`. -/
structure Body where
  city : Option String
  property_type : Option String
deriving DecidableEq

/-- One row of the stats payload. -/
structure StatRow where
  name : String
  median : ℚ
  transit : ℤ
  distance_km : ℚ
deriving DecidableEq

/-- 200 payload of `get_neighbourhood_stats`. -/
structure Payload where
  city : String
  property_type : String
  currency : String
  snapshot_month : String
  source : String
  neighbourhoods : List StatRow
deriving DecidableEq

/-- Structured response of `get_neighbourhood_stats`: 404 or 200. -/
inductive Result where
  | notFound (city : String)
  | success (p : Payload)
deriving DecidableEq

/-- `lambdas.get_neighbourhood_stats.lambda_handler` (direct-dict event). -/
def lambda_handler (ds : Dataset) (body : Body) : Result :=
  let city := city_key (body.city.getD "Toronto")
  let prop := propNorm body.property_type
  match getCityObj ds city with
  | none => .notFound city
  | some _ =>
    .success
      { city := city
      , property_type := prop
      , currency := ds.meta.currency.getD "CAD/month"
      , snapshot_month := ds.meta.snapshot_month.getD "unknown"
      , source := ds.meta.version.getD "static_json_v1"
      , neighbourhoods :=
          (list_neighbourhoods ds city).filterMap fun row =>
            match get_neighbourhood_median row prop with
            | some med =>
              some { name := row.name
                   , median := med
                   , transit := get_neighbourhood_transit row 0
                   , distance_km := max 0 (row.distance_km.getD 0) }
            | none => none }

/-- HTTP status of a `get_neighbourhood_stats` response. -/
def status : Result → ℤ
  | .notFound _ => 404
  | .success _ => 200

/-- The neighbourhood rows of a stats response (empty on errors). -/
def rowsOf : Result → List StatRow
  | .success p => p.neighbourhoods
  | .notFound _ => []

end RentPilot.Stats

namespace RentPilot.Agent

open RentPilot.Suggest (Prefs PyErr)

/-- A JSON value as handled by the orchestrator (`agent_bedrock.py`), whose
result envelope is built from model output and therefore dynamically typed. -/
inductive JVal where
  | null
  | bool (b : Bool)
  | num (q : ℚ)
  | str (s : String)
  | arr (xs : List JVal)
  | obj (fields : List (String × JVal))

/-- Python truthiness of a JSON value. -/
def jTruthy : JVal → Bool
  | .null => false
  | .bool b => b
  | .num q => decide (q ≠ 0)
  | .str s => decide (s ≠ "")
  | .arr xs => !xs.isEmpty
  | .obj fs => !fs.isEmpty

/-- `d.get(k)` on an envelope-level dict. -/
def jGet (fields : List (String × JVal)) (k : String) : Option JVal :=
  dlookup fields k

/-- `x or d` where a missing key gave Python `None`. -/
def pyOr (v : Option JVal) (d : JVal) : JVal :=
  match v with
  | some x => if jTruthy x then x else d
  | none => d

/-- `{"ok": True}`. -/
def okTrue : JVal := .obj [("ok", .bool true)]

/-- `first_tool = actions[0]["tool"] if (actions and isinstance(actions, list)
and len(actions) > 0) else None`.  Subscripting a non-dict element raises
`TypeError`; a dict without the key raises `KeyError`. -/
def firstTool (actions : JVal) : Except PyErr (Option JVal) :=
  match actions with
  | .arr [] => .ok none
  | .arr (a :: _) =>
    match a with
    | .obj fs =>
      match dlookup fs "tool" with
      | some v => .ok (some v)
      | none => .error .keyError
    | _ => .error .typeError
  | _ => .ok none

/-- The prefs-locating block of `_local_verify`: try
`tool_result.args.prefs`, fall back to `answer.prefs` when falsy. -/
def locatePrefs (result : List (String × JVal)) (ans : JVal) : JVal :=
  let tr := pyOr (jGet result "tool_result") (.obj [])
  let prefs0 : JVal :=
    match tr with
    | .obj trf =>
      match jGet trf "args" with
      | some (.obj af) => (jGet af "prefs").getD .null
      | _ => (jGet ([] : List (String × JVal)) "prefs").getD .null
    | _ => .obj []
  if !jTruthy prefs0 then
    match ans with
    | .obj af => pyOr (jGet af "prefs") (.obj [])
    | _ => prefs0
  else prefs0

/-- The recommendations-locating block of `_local_verify`. -/
def locateRecs (result : List (String × JVal)) (ans : JVal) : JVal :=
  let tr := pyOr (jGet result "tool_result") (.obj [])
  let recs0 : JVal :=
    match ans with
    | .obj af => pyOr (jGet af "recommendations") (.arr [])
    | _ => .arr []
  if !jTruthy recs0 then
    match tr with
    | .obj trf =>
      let trAns := pyOr (jGet trf "answer") (.obj [])
      match trAns with
      | .obj taf => pyOr (jGet taf "recommendations") (.arr [])
      | _ => recs0
    | _ => recs0
  else recs0

/-- A preference-relaxation hint (the data interpolated into the hint string):
old value and suggested new value. -/
inductive Hint where
  | maxDist (old new : ℚ)
  | minTransit (old new : ℚ)
  | targetRti (old new : ℚ)
deriving DecidableEq

/-- `x is None` on a located JSON value (a stored JSON null became Python
`None`). -/
def isNull : JVal → Bool
  | .null => true
  | _ => false

/-- `first_tool == "suggest_neighbourhoods"`. -/
def isSuggestTool : Option JVal → Bool
  | some (.str s) => decide (s = "suggest_neighbourhoods")
  | _ => false

/-- `x <= q` on a JSON value, as Python evaluates it (`bool` coerces, anything
non-numeric raises `TypeError`). -/
def jLe (x : JVal) (q : ℚ) : Except PyErr Bool :=
  match x with
  | .num v => .ok (decide (v ≤ q))
  | .bool b => .ok (decide ((if b then (1 : ℚ) else 0) ≤ q))
  | _ => .error .typeError

/-- `q <= x`, symmetric to `jLe`. -/
def jGe (x : JVal) (q : ℚ) : Except PyErr Bool :=
  match x with
  | .num v => .ok (decide (q ≤ v))
  | .bool b => .ok (decide (q ≤ (if b then (1 : ℚ) else 0)))
  | _ => .error .typeError

/-- Numeric content of a JSON value (`bool` coerces as in Python arithmetic). -/
def jNum (x : JVal) : Except PyErr ℚ :=
  match x with
  | .num v => .ok v
  | .bool b => .ok (if b then 1 else 0)
  | _ => .error .typeError

/-- The `max_distance_km` hint of `_local_verify`: fires when the value is
present, non-null and `<= 12`; the suggestion adds 3. -/
def hintMaxDist (pf : List (String × JVal)) : Except PyErr (List Hint) :=
  match jGet pf "max_distance_km" with
  | none => .ok []
  | some .null => .ok []
  | some md =>
    match jLe md 12 with
    | .error e => .error e
    | .ok false => .ok []
    | .ok true =>
      match jNum md with
      | .error e => .error e
      | .ok x => .ok [Hint.maxDist x (x + 3)]

/-- The `min_transit` hint of `_local_verify`: fires when the value is present,
non-null and `>= 60`; the suggestion subtracts 5, clamped at 0. -/
def hintMinTransit (pf : List (String × JVal)) : Except PyErr (List Hint) :=
  match jGet pf "min_transit" with
  | none => .ok []
  | some .null => .ok []
  | some mt =>
    match jGe mt 60 with
    | .error e => .error e
    | .ok false => .ok []
    | .ok true =>
      match jNum mt with
      | .error e => .error e
      | .ok x => .ok [Hint.minTransit x (max (x - 5) 0)]

/-- The `target_rent_to_income` hint of `_local_verify`: fires when the value
is present, non-null and `<= 0.30`; the suggestion adds 0.03, clamped at 0.4. -/
def hintTargetRti (pf : List (String × JVal)) : Except PyErr (List Hint) :=
  match jGet pf "target_rent_to_income" with
  | none => .ok []
  | some .null => .ok []
  | some tri =>
    match jLe tri (3/10) with
    | .error e => .error e
    | .ok false => .ok []
    | .ok true =>
      match jNum tri with
      | .error e => .error e
      | .ok x => .ok [Hint.targetRti x (min (x + 3/100) (4/10))]

/-- The hint-building block of `_local_verify` (strict + hints mode).  `prefs`
may be any JSON value; `.get` on a non-dict raises `AttributeError`. -/
def mkHints (prefs : JVal) : Except PyErr (List Hint) :=
  match prefs with
  | .obj pf =>
    match hintMaxDist pf with
    | .error e => .error e
    | .ok h1 =>
      match hintMinTransit pf with
      | .error e => .error e
      | .ok h2 =>
        match hintTargetRti pf with
        | .error e => .error e
        | .ok h3 => .ok (h1 ++ h2 ++ h3)
  | _ => .error .attributeError

/-- The affordability-sanity block of `_local_verify`.  Returns `true` when the
budget-mismatch note fires; the whole block is inside `try/except`, so any
raise degrades to `false`. -/
def budgetCheck (ans : JVal) : Bool :=
  let r : Except PyErr Bool :=
    match ans with
    | .obj af =>
      match jGet af "listing_price", jGet af "income_annual", jGet af "target_ratio" with
      | some lp, some inc, some tgt =>
        if isNull lp || isNull inc || isNull tgt then .ok false
        else
          match jNum lp, jNum inc, jNum tgt with
          | .ok l, .ok i, .ok t =>
            if 0 < t ∧ t < 1 then .ok (decide ((i / 12) * (t * (5/4)) < l))
            else .ok false
          | .error e, _, _ => .error e
          | _, .error e, _ => .error e
          | _, _, .error e => .error e
      | _, _, _ => .ok false
    | _ => .ok false
  match r with
  | .ok b => b
  | .error _ => false

/-- Structured return value of `_local_verify`. -/
inductive VOut where
  | passthrough (v : JVal)
  | noMatches (hints : List Hint)
  | budgetMismatch

/-- `agent_bedrock._local_verify`, parameterised by the `RP_VERIFY_STRICT` and
`RP_VERIFY_HINTS` flags.  The result is `Except` because the verifier can
raise (see `firstTool` and `mkHints`). -/
def local_verify (strict hints : Bool) (result : List (String × JVal)) : Except PyErr VOut :=
  if !strict then .ok (.passthrough (pyOr (jGet result "verify") okTrue))
  else
    let v := pyOr (jGet result "verify") (.obj [])
    let ans := pyOr (jGet result "answer") (.obj [])
    let actions := pyOr (jGet result "actions") (.arr [])
    match firstTool actions with
    | .error e => .error e
    | .ok ft =>
      let prefs := locatePrefs result ans
      if isSuggestTool ft then
        let recs := locateRecs result ans
        if !jTruthy recs then
          if hints then
            match mkHints prefs with
            | .error e => .error e
            | .ok hs => .ok (.noMatches (hs.take 2))
          else .ok (.noMatches [])
        else if budgetCheck ans then .ok .budgetMismatch
        else .ok (.passthrough (pyOr (some v) okTrue))
      else if budgetCheck ans then .ok .budgetMismatch
      else .ok (.passthrough (pyOr (some v) okTrue))

/-- `_DEFAULT_PREFS` fallback constant in `agent_bedrock.py`:
`{"max_distance_km": 12, "min_transit": 60, "target_rent_to_income": 0.30}`. -/
def DEFAULT_PREFS : Prefs := ⟨some (some 12), some (some 60), some (some (3/10))⟩

/-- One key of `_normalize_prefs`: start from the default (kept only when
non-null), then overlay the user's value — an explicit null deletes the key if
present, otherwise stores a null. -/
def normKey (dflt : Option (Option ℚ)) (user : Option (Option ℚ)) : Option (Option ℚ) :=
  let base : Option (Option ℚ) :=
    match dflt with
    | some (some v) => some (some v)
    | _ => none
  match user with
  | none => base
  | some none =>
    match base with
    | some _ => none
    | none => some none
  | some (some v) => some (some v)

/-- `agent_bedrock._normalize_prefs` on the three known preference keys,
with the built-in default dict. -/
def normalize_prefs (pin : Prefs) : Prefs :=
  { max_distance_km := normKey DEFAULT_PREFS.max_distance_km pin.max_distance_km
  , min_transit := normKey DEFAULT_PREFS.min_transit pin.min_transit
  , target_rent_to_income := normKey DEFAULT_PREFS.target_rent_to_income pin.target_rent_to_income }

/-- The tool named by the *last* entry of the `actions` list — the notion the
spec's verifier rule quantifies over (the implementation reads the first). -/
def lastActionTool (result : List (String × JVal)) : Option JVal :=
  match pyOr (jGet result "actions") (.arr []) with
  | .arr as =>
    match as.getLast? with
    | some (.obj fs) => dlookup fs "tool"
    | _ => none
  | _ => none

end RentPilot.Agent

namespace RentPilot

open RentPilot.Afford in
theorem afford_handler_valid (l m i t : ℚ) (hl : 0 < l) (hm : 0 < m) (hi : 0 < i) :
    Afford.lambda_handler ⟨some l, some m, some i, some t⟩ =
      .ok (roundTo 4 ((l - m) / m)) (roundTo 4 (l / (i / 12)))
        (make_verdict ((l - m) / m) (l / (i / 12)) t) := by
  unfold Afford.lambda_handler
  simp only [Option.getD_some]
  rw [if_neg]
  push_neg
  exact ⟨hl, hm, hi⟩

open RentPilot.Afford in
theorem make_verdict_mem (d r t : ℚ) : make_verdict d r t ∈ verdicts := by
  unfold make_verdict
  split_ifs <;> simp [verdicts]

/-- Claim C2: for every valid affordability input (`listing_price > 0`,
`city_median > 0`, `income_annual > 0`, any `target_ratio`), the handler
returns a verdict that is exactly `_make_verdict` applied to
`(delta_pct, rti, target_ratio)` — a pure function of those three values —
the verdict is one of the seven fixed literal strings, and inputs exactly on
a tolerance-band boundary (`delta_pct = ±0.02`, `rti = target_ratio ± 0.02`)
resolve to the "near" classification on that axis. -/
theorem c2_verdict_classification (l m i t : ℚ) (hl : 0 < l) (hm : 0 < m) (hi : 0 < i) :
    Afford.lambda_handler ⟨some l, some m, some i, some t⟩ =
      .ok (roundTo 4 ((l - m) / m)) (roundTo 4 (l / (i / 12)))
        (Afford.make_verdict ((l - m) / m) (l / (i / 12)) t) ∧
    Afford.make_verdict ((l - m) / m) (l / (i / 12)) t ∈ Afford.verdicts ∧
    Afford.near_market Afford.MARKET_BAND = true ∧
    Afford.near_market (-Afford.MARKET_BAND) = true ∧
    Afford.near_target (t + Afford.RATIO_TOL) t = true ∧
    Afford.near_target (t - Afford.RATIO_TOL) t = true := by
  refine ⟨afford_handler_valid l m i t hl hm hi, make_verdict_mem _ _ _, ?_, ?_, ?_, ?_⟩
  · simp only [Afford.near_market, Afford.above_market, Afford.below_market, Bool.and_eq_true,
      Bool.not_eq_true', decide_eq_false_iff_not, Afford.MARKET_BAND]
    norm_num
  · simp only [Afford.near_market, Afford.above_market, Afford.below_market, Bool.and_eq_true,
      Bool.not_eq_true', decide_eq_false_iff_not, Afford.MARKET_BAND]
    norm_num
  · simp only [Afford.near_target, Afford.above_target, Afford.below_target, Bool.and_eq_true,
      Bool.not_eq_true', decide_eq_false_iff_not, Afford.RATIO_TOL]
    refine ⟨lt_irrefl _, ?_⟩
    intro h
    linarith
  · simp only [Afford.near_target, Afford.above_target, Afford.below_target, Bool.and_eq_true,
      Bool.not_eq_true', decide_eq_false_iff_not, Afford.RATIO_TOL]
    constructor <;> intro h <;> linarith

/-- Witness for C2 at the documented example input
`(2600, 2500, 80000, 0.30)`. -/
theorem c2_witness :
    Afford.lambda_handler ⟨some 2600, some 2500, some 80000, some (3/10)⟩ =
      .ok (roundTo 4 ((2600 - 2500) / 2500)) (roundTo 4 (2600 / (80000 / 12)))
        (Afford.make_verdict ((2600 - 2500) / 2500) (2600 / (80000 / 12)) (3/10)) ∧
    Afford.make_verdict ((2600 - 2500) / 2500) (2600 / (80000 / 12)) (3/10) ∈ Afford.verdicts ∧
    Afford.near_market Afford.MARKET_BAND = true ∧
    Afford.near_market (-Afford.MARKET_BAND) = true ∧
    Afford.near_target ((3/10) + Afford.RATIO_TOL) (3/10) = true ∧
    Afford.near_target ((3/10) - Afford.RATIO_TOL) (3/10) = true :=
  c2_verdict_classification 2600 2500 80000 (3/10) (by norm_num) (by norm_num) (by norm_num)

open RentPilot.Afford in
theorem make_verdict_near_above (d r t : ℚ) (ha : above_market d = false)
    (hb : below_market d = false) (hat : above_target r t = true) :
    make_verdict d r t = "Near market; above target ratio" := by
  have hnt : near_target r t = false := by
    simp [near_target, hat]
  have hbt : below_target r t = false := by
    simp only [above_target, decide_eq_true_eq] at hat
    simp only [below_target, decide_eq_false_iff_not, not_lt]
    have htol : (0 : ℚ) < RATIO_TOL := by norm_num [RATIO_TOL]
    linarith
  simp [make_verdict, near_market, ha, hb, hat, hnt, hbt]

/-- Claim C7 counterexample: at `listing_price = 100001`,
`city_median = 100000`, `income_annual = 12000` the raw `delta_pct` is
`0.00001 > 0`, but the returned 4-decimal-rounded `delta_pct` is exactly `0`,
which does not share the (strictly positive) sign of
`listing_price - city_median`. -/
theorem c7_counterexample :
    Afford.lambda_handler ⟨some 100001, some 100000, some 12000, none⟩ =
      .ok 0 (100001/1000) "Near market; above target ratio" ∧
    (0 : ℚ) < 100001 - 100000 ∧ ¬((0 : ℚ) < 0) := by
  refine ⟨?_, by norm_num, by norm_num⟩
  have h := afford_handler_valid 100001 100000 12000 (3/10)
    (by norm_num) (by norm_num) (by norm_num)
  rw [show Afford.Body.mk (some 100001) (some 100000) (some 12000) none =
      { listing_price := some 100001, city_median := some 100000,
        income_annual := some 12000, target_ratio := none } from rfl]
  have hbody : Afford.lambda_handler
      ⟨some 100001, some 100000, some 12000, none⟩ =
      .ok (roundTo 4 ((100001 - 100000) / 100000)) (roundTo 4 (100001 / (12000 / 12)))
        (Afford.make_verdict ((100001 - 100000) / 100000) (100001 / (12000 / 12)) (3/10)) := by
    unfold Afford.lambda_handler
    simp only [Option.getD_some, Option.getD_none]
    rw [if_neg (by norm_num)]
  rw [hbody]
  have hd : ((100001 : ℚ) - 100000) / 100000 = 1/100000 := by norm_num
  have hr : (100001 : ℚ) / (12000 / 12) = 100001/1000 := by norm_num
  rw [hd, hr]
  have h1 : roundTo 4 ((1 : ℚ)/100000) = 0 := by
    have hfl : ⌊(1 : ℚ)/100000 * 10 ^ 4⌋ = 0 := by
      rw [show (1 : ℚ)/100000 * 10 ^ 4 = 1/10 by norm_num]
      norm_num [Int.floor_eq_iff]
    unfold roundTo rhe
    rw [hfl]
    norm_num
  have h2 : roundTo 4 ((100001 : ℚ)/1000) = 100001/1000 := by
    have hfl : ⌊(100001 : ℚ)/1000 * 10 ^ 4⌋ = 1000010 := by
      rw [show (100001 : ℚ)/1000 * 10 ^ 4 = 1000010 by norm_num]
      norm_num
    unfold roundTo rhe
    rw [hfl]
    norm_num
  have h3 : Afford.make_verdict ((1 : ℚ)/100000) ((100001 : ℚ)/1000) (3/10) =
      "Near market; above target ratio" :=
    make_verdict_near_above ((1 : ℚ)/100000) ((100001 : ℚ)/1000) (3/10)
      (by simp only [Afford.above_market, Afford.MARKET_BAND, decide_eq_false_iff_not]; norm_num)
      (by simp only [Afford.below_market, Afford.MARKET_BAND, decide_eq_false_iff_not]; norm_num)
      (by simp only [Afford.above_target, Afford.RATIO_TOL, decide_eq_true_eq]; norm_num)
  rw [h1, h2, h3]

/-- Claim C7, amended: for all valid inputs the rounded `delta_pct` returned
by the handler never has the sign opposite to `listing_price - city_median`:
it is nonnegative when `listing_price > city_median`, nonpositive when
`listing_price < city_median`, and zero when they are equal (it may collapse
to zero when `|delta_pct| < 0.00005`, as the counterexample shows). -/
theorem c7_amended_sign (l m i t : ℚ) (hl : 0 < l) (hm : 0 < m) (hi : 0 < i) :
    Afford.lambda_handler ⟨some l, some m, some i, some t⟩ =
      .ok (roundTo 4 ((l - m) / m)) (roundTo 4 (l / (i / 12)))
        (Afford.make_verdict ((l - m) / m) (l / (i / 12)) t) ∧
    (m < l → 0 ≤ roundTo 4 ((l - m) / m)) ∧
    (l < m → roundTo 4 ((l - m) / m) ≤ 0) ∧
    (l = m → roundTo 4 ((l - m) / m) = 0) := by
  refine ⟨afford_handler_valid l m i t hl hm hi, ?_, ?_, ?_⟩
  · intro h
    exact roundTo_nonneg 4 (le_of_lt (div_pos (sub_pos.mpr h) hm))
  · intro h
    exact roundTo_nonpos 4 (le_of_lt (div_neg_of_neg_of_pos (sub_neg.mpr h) hm))
  · intro h
    rw [h, sub_self, zero_div, roundTo_zero]

/-- Witness for the amended C7 at `(2600, 2500, 80000, 0.30)`. -/
theorem c7_witness :
    Afford.lambda_handler ⟨some 2600, some 2500, some 80000, some (3/10)⟩ =
      .ok (roundTo 4 ((2600 - 2500) / 2500)) (roundTo 4 (2600 / (80000 / 12)))
        (Afford.make_verdict ((2600 - 2500) / 2500) (2600 / (80000 / 12)) (3/10)) ∧
    ((2500 : ℚ) < 2600 → 0 ≤ roundTo 4 ((2600 - 2500) / 2500)) ∧
    ((2600 : ℚ) < 2500 → roundTo 4 ((2600 - 2500) / 2500) ≤ 0) ∧
    ((2600 : ℚ) = 2500 → roundTo 4 ((2600 - 2500) / 2500) = 0) :=
  c7_amended_sign 2600 2500 80000 (3/10) (by norm_num) (by norm_num) (by norm_num)

end RentPilot

namespace RentPilot

/-- Claim C9: for each of the three data lambdas, a request body with no
`city` key behaves exactly (same structured status and body) as the same
request with `city = "Toronto"` supplied. -/
theorem c9_default_city (ds : Dataset) (pt : Option String) (inb : Option Bool)
    (inc : Option ℚ) (prefs : Option Suggest.Prefs) (lp bc : Option ℚ) :
    Rent.lambda_handler ds ⟨none, pt, inb⟩ =
      Rent.lambda_handler ds ⟨some "Toronto", pt, inb⟩ ∧
    Stats.lambda_handler ds ⟨none, pt⟩ =
      Stats.lambda_handler ds ⟨some "Toronto", pt⟩ ∧
    Suggest.lambda_handler ds ⟨none, pt, inc, prefs, lp, bc⟩ =
      Suggest.lambda_handler ds ⟨some "Toronto", pt, inc, prefs, lp, bc⟩ :=
  ⟨rfl, rfl, rfl⟩

/-- The Toronto city record of the concrete witness snapshot. -/
def torontoRec : CityRec :=
  { medians := [("1bed", 2500), ("2bed", 3200)]
  , neighbourhoods :=
      [ { name := "Annex", median := [("1bed", 2400)], transit := some 80, distance_km := some 5 }
      , { name := "Faraway", median := [("1bed", 1800)], transit := some 90,
          distance_km := some 20 } ] }

/-- A concrete two-neighbourhood snapshot used by the witnesses. -/
def dsA : Dataset :=
  { meta := { currency := some "CAD/month", snapshot_month := some "2025-06",
              version := some "static_json_v1" }
  , cities := [("Toronto", torontoRec)] }

/-- Witness for C9 at the concrete snapshot `dsA`. -/
theorem c9_witness :
    Rent.lambda_handler dsA ⟨none, some "1bed", some true⟩ =
      Rent.lambda_handler dsA ⟨some "Toronto", some "1bed", some true⟩ ∧
    Stats.lambda_handler dsA ⟨none, some "1bed"⟩ =
      Stats.lambda_handler dsA ⟨some "Toronto", some "1bed"⟩ ∧
    Suggest.lambda_handler dsA ⟨none, some "1bed", some 96000, none, none, none⟩ =
      Suggest.lambda_handler dsA ⟨some "Toronto", some "1bed", some 96000, none, none, none⟩ :=
  c9_default_city dsA (some "1bed") (some true) (some 96000) none none none

theorem buildRows_none (prefs : Suggest.Prefs) (maxD : ℚ) (minT : ℤ) (tg im pr : ℚ)
    (prop : String) :
    ∀ ns : List Nbhd, (∀ n ∈ ns, get_neighbourhood_median n prop = none) →
      Suggest.buildRows prefs maxD minT tg im pr prop ns = .ok [] := by
  intro ns
  induction ns with
  | nil => intro _; rfl
  | cons n ns ih =>
    intro h
    have hn : get_neighbourhood_median n prop = none := h n (List.mem_cons_self n ns)
    have hns : ∀ x ∈ ns, get_neighbourhood_median x prop = none :=
      fun x hx => h x (List.mem_cons_of_mem n hx)
    simp only [Suggest.buildRows, hn]
    exact ih hns

/-- Claim C8 counterexample: on the concrete snapshot, a request for the
unsupported property type `4bed` against the known city Toronto makes
`get_neighbourhood_stats` return status 200 with an empty (silent) success
payload, not a non-200 error. -/
theorem c8_counterexample :
    "4bed" ∉ supported_property_types ∧
    getCityObj dsA (city_key "Toronto") = some torontoRec ∧
    Stats.status (Stats.lambda_handler dsA ⟨some "Toronto", some "4bed"⟩) = 200 ∧
    Stats.rowsOf (Stats.lambda_handler dsA ⟨some "Toronto", some "4bed"⟩) = [] := by
  refine ⟨by decide, rfl, rfl, rfl⟩

/-- Claim C8, amended: for a property type that has no median entry anywhere
in the city's data (which holds for every type outside
`{studio, 1bed, 2bed, 3bed}` on snapshots respecting the data model),
`get_rent_data` returns the explicit 400 `unsupported_property_type` error,
but `get_neighbourhood_stats` and `suggest_neighbourhoods` instead return
status 200 with an empty neighbourhood/recommendation list. -/
theorem c8_amended (ds : Dataset) (c : String) (pt : Option String) (cobj : CityRec)
    (inb : Option Bool) (inc : Option ℚ) (prefs : Option Suggest.Prefs) (lp bc : Option ℚ)
    (h1 : getCityObj ds (city_key c) = some cobj)
    (h2 : dlookup cobj.medians (strNorm (propNorm pt)) = none)
    (h3 : ∀ n ∈ cobj.neighbourhoods, get_neighbourhood_median n (propNorm pt) = none) :
    Rent.lambda_handler ds ⟨some c, pt, inb⟩ =
      .unsupportedProp (propNorm pt) supported_property_types ∧
    Rent.status (Rent.lambda_handler ds ⟨some c, pt, inb⟩) = 400 ∧
    Rent.errorCode (Rent.lambda_handler ds ⟨some c, pt, inb⟩) =
      some "unsupported_property_type" ∧
    Stats.status (Stats.lambda_handler ds ⟨some c, pt⟩) = 200 ∧
    Stats.rowsOf (Stats.lambda_handler ds ⟨some c, pt⟩) = [] ∧
    Suggest.status (Suggest.lambda_handler ds ⟨some c, pt, inc, prefs, lp, bc⟩) = 200 ∧
    Suggest.recsOf (Suggest.lambda_handler ds ⟨some c, pt, inc, prefs, lp, bc⟩) = [] := by
  have hrent : Rent.lambda_handler ds ⟨some c, pt, inb⟩ =
      .unsupportedProp (propNorm pt) supported_property_types := by
    simp only [Rent.lambda_handler, get_city_median, Option.getD_some, h1, h2]
  have hstats_status : Stats.status (Stats.lambda_handler ds ⟨some c, pt⟩) = 200 := by
    simp only [Stats.lambda_handler, list_neighbourhoods, Option.getD_some, h1]
    rfl
  have hstats_rows : Stats.rowsOf (Stats.lambda_handler ds ⟨some c, pt⟩) = [] := by
    simp only [Stats.lambda_handler, list_neighbourhoods, Option.getD_some, h1, Stats.rowsOf]
    refine List.filterMap_eq_nil_iff.mpr ?_
    intro n hn
    simp only [h3 n hn]
  have hsugg_status :
      Suggest.status (Suggest.lambda_handler ds ⟨some c, pt, inc, prefs, lp, bc⟩) = 200 := by
    simp only [Suggest.lambda_handler, list_neighbourhoods, Option.getD_some, h1]
    rw [buildRows_none _ _ _ _ _ _ _ _ h3]
    rfl
  have hsugg_recs :
      Suggest.recsOf (Suggest.lambda_handler ds ⟨some c, pt, inc, prefs, lp, bc⟩) = [] := by
    simp only [Suggest.lambda_handler, list_neighbourhoods, Option.getD_some, h1]
    rw [buildRows_none _ _ _ _ _ _ _ _ h3]
    rfl
  refine ⟨hrent, ?_, ?_, hstats_status, hstats_rows, hsugg_status, hsugg_recs⟩
  · rw [hrent]; rfl
  · rw [hrent]; rfl

/-- Witness for the amended C8: the concrete snapshot with property type
`4bed` exhibits the 400 from `get_rent_data` and the silent 200s from the
other two handlers. -/
theorem c8_witness :
    Rent.lambda_handler dsA ⟨some "Toronto", some "4bed", some true⟩ =
      .unsupportedProp (propNorm (some "4bed")) supported_property_types ∧
    Rent.status (Rent.lambda_handler dsA ⟨some "Toronto", some "4bed", some true⟩) = 400 ∧
    Rent.errorCode (Rent.lambda_handler dsA ⟨some "Toronto", some "4bed", some true⟩) =
      some "unsupported_property_type" ∧
    Stats.status (Stats.lambda_handler dsA ⟨some "Toronto", some "4bed"⟩) = 200 ∧
    Stats.rowsOf (Stats.lambda_handler dsA ⟨some "Toronto", some "4bed"⟩) = [] ∧
    Suggest.status (Suggest.lambda_handler dsA
      ⟨some "Toronto", some "4bed", some 96000, none, none, none⟩) = 200 ∧
    Suggest.recsOf (Suggest.lambda_handler dsA
      ⟨some "Toronto", some "4bed", some 96000, none, none, none⟩) = [] :=
  c8_amended dsA "Toronto" (some "4bed") torontoRec (some true) (some 96000) none none none
    rfl rfl (by decide)

end RentPilot

namespace RentPilot

instance : IsTotal Suggest.Row Suggest.scoreGe :=
  ⟨fun a b => le_total b.score a.score⟩

instance : IsTrans Suggest.Row Suggest.scoreGe :=
  ⟨fun _ _ _ hab hbc => le_trans hbc hab⟩

theorem buildRows_sound (prefs : Suggest.Prefs) (maxD : ℚ) (minT : ℤ) (tg im pr : ℚ)
    (prop : String) :
    ∀ (ns : List Nbhd) (rows : List Suggest.Row),
      Suggest.buildRows prefs maxD minT tg im pr prop ns = .ok rows →
      ∀ r ∈ rows, r.distance_km ≤ maxD ∧ minT ≤ r.transit ∧
        (if 0 < im then r.median / im else 10 ^ 9) ≤ tg := by
  intro ns
  induction ns with
  | nil =>
    intro rows h r hr
    simp only [Suggest.buildRows] at h
    cases h
    cases hr
  | cons n ns ih =>
    intro rows h r hr
    simp only [Suggest.buildRows] at h
    split at h
    · exact ih rows h r hr
    · rename_i med hm
      split at h
      · exact ih rows h r hr
      · rename_i hfil
        push_neg at hfil
        split at h
        · rename_i him
          split at h
          · exact ih rows h r hr
          · rename_i hrti
            push_neg at hrti
            split at h
            · exact Except.noConfusion h
            · exact Except.noConfusion h
            · rename_i w rest hw hrec
              injection h with h2
              subst h2
              rcases List.mem_cons.mp hr with hr | hr
              · subst hr
                refine ⟨hfil.1, hfil.2, ?_⟩
                rw [if_pos him]
                exact hrti
              · exact ih rest hrec r hr
        · rename_i him
          split at h
          · exact ih rows h r hr
          · rename_i hrti
            push_neg at hrti
            split at h
            · exact Except.noConfusion h
            · exact Except.noConfusion h
            · rename_i w rest hw hrec
              injection h with h2
              subst h2
              rcases List.mem_cons.mp hr with hr | hr
              · subst hr
                refine ⟨hfil.1, hfil.2, ?_⟩
                rw [if_neg him]
                exact hrti
              · exact ih rest hrec r hr

/-- Claim C1: every recommendation returned by the recommender satisfies the
three hard filters at the effective preference values used by the handler
(`distance_km <= max_distance_km`, `transit >= min_transit`,
`rti <= target_rti` where `rti` is the handler's `median / income_monthly`
value for that row), the list has length at most 3, and it is sorted
descending by the stored `score` field. -/
theorem c1_suggest_invariants (ds : Dataset) (body : Suggest.Body) :
    (Suggest.recsOf (Suggest.lambda_handler ds body)).length ≤ 3 ∧
    List.Pairwise Suggest.scoreGe (Suggest.recsOf (Suggest.lambda_handler ds body)) ∧
    ∀ r ∈ Suggest.recsOf (Suggest.lambda_handler ds body),
      r.distance_km ≤ Suggest.effMaxDist (body.prefs.getD ⟨none, none, none⟩) ∧
      Suggest.effMinTransit (body.prefs.getD ⟨none, none, none⟩) ≤ r.transit ∧
      (if 0 < body.income_annual.getD 80000 / 12
       then r.median / (body.income_annual.getD 80000 / 12) else 10 ^ 9) ≤
        Suggest.effTargetRti (body.prefs.getD ⟨none, none, none⟩) := by
  rcases hres : Suggest.lambda_handler ds body with c | _ | p
  · exact ⟨by simp [Suggest.recsOf], by simp [Suggest.recsOf], by simp [Suggest.recsOf]⟩
  · exact ⟨by simp [Suggest.recsOf], by simp [Suggest.recsOf], by simp [Suggest.recsOf]⟩
  · simp only [Suggest.lambda_handler] at hres
    cases hc : getCityObj ds (city_key (body.city.getD "Toronto")) with
    | none =>
      rw [hc] at hres
      cases hres
    | some cobj =>
      rw [hc] at hres
      cases hb : Suggest.buildRows (body.prefs.getD ⟨none, none, none⟩)
          (Suggest.effMaxDist (body.prefs.getD ⟨none, none, none⟩))
          (Suggest.effMinTransit (body.prefs.getD ⟨none, none, none⟩))
          (Suggest.effTargetRti (body.prefs.getD ⟨none, none, none⟩))
          (body.income_annual.getD 80000 / 12)
          (body.listing_price.getD (body.budget_cap.getD
            (roundTo 2 (body.income_annual.getD 80000 / 12 *
              Suggest.effTargetRti (body.prefs.getD ⟨none, none, none⟩)))))
          (propNorm body.property_type)
          (list_neighbourhoods ds (city_key (body.city.getD "Toronto"))) with
      | error e =>
        rw [hb] at hres
        cases hres
      | ok rows =>
        rw [hb] at hres
        cases hres
        have hrecs : Suggest.recsOf (Suggest.Result.success
            { city := city_key (body.city.getD "Toronto")
            , property_type := propNorm body.property_type
            , source := ds.meta.version.getD "static_json_v1"
            , snapshot_month := ds.meta.snapshot_month.getD "unknown"
            , recommendations := (List.insertionSort Suggest.scoreGe rows).take 3
            , reason := if ((List.insertionSort Suggest.scoreGe rows).take 3).isEmpty
                then some "no_neighbourhood_passed_filters" else none }) =
            (List.insertionSort Suggest.scoreGe rows).take 3 := rfl
        refine ⟨?_, ?_, ?_⟩
        · rw [hrecs]
          rw [List.length_take]
          exact min_le_left 3 _
        · rw [hrecs]
          exact List.Pairwise.sublist (List.take_sublist 3 _)
            (List.sorted_insertionSort Suggest.scoreGe rows)
        · rw [hrecs]
          intro r hr
          have hr1 : r ∈ List.insertionSort Suggest.scoreGe rows :=
            List.take_subset 3 _ hr
          have hr2 : r ∈ rows :=
            (List.perm_insertionSort Suggest.scoreGe rows).mem_iff.mp hr1
          exact buildRows_sound _ _ _ _ _ _ _ _ rows hb r hr2

/-- Witness for C1 at the concrete snapshot `dsA` (the returned list there
consists of the Annex row). -/
theorem c1_witness :
    (Suggest.recsOf (Suggest.lambda_handler dsA
      ⟨some "Toronto", some "1bed", some 96000, none, none, none⟩)).length ≤ 3 ∧
    List.Pairwise Suggest.scoreGe (Suggest.recsOf (Suggest.lambda_handler dsA
      ⟨some "Toronto", some "1bed", some 96000, none, none, none⟩)) ∧
    ∀ r ∈ Suggest.recsOf (Suggest.lambda_handler dsA
        ⟨some "Toronto", some "1bed", some 96000, none, none, none⟩),
      r.distance_km ≤ Suggest.effMaxDist
        ((Suggest.Body.mk (some "Toronto") (some "1bed") (some 96000) none none
          none).prefs.getD ⟨none, none, none⟩) ∧
      Suggest.effMinTransit ((Suggest.Body.mk (some "Toronto") (some "1bed") (some 96000) none
        none none).prefs.getD ⟨none, none, none⟩) ≤ r.transit ∧
      (if 0 < (Suggest.Body.mk (some "Toronto") (some "1bed") (some 96000) none none
          none).income_annual.getD 80000 / 12
       then r.median / ((Suggest.Body.mk (some "Toronto") (some "1bed") (some 96000) none none
          none).income_annual.getD 80000 / 12) else 10 ^ 9) ≤
        Suggest.effTargetRti ((Suggest.Body.mk (some "Toronto") (some "1bed") (some 96000) none
          none none).prefs.getD ⟨none, none, none⟩) :=
  c1_suggest_invariants dsA ⟨some "Toronto", some "1bed", some 96000, none, none, none⟩

end RentPilot

namespace RentPilot

/-- The price-independent fields of a recommendation row (everything except
`rent_diff_vs_listing` and `why`). -/
structure RowCore where
  name : String
  median : ℚ
  rent_to_income : ℚ
  transit : ℤ
  distance_km : ℚ
  score : ℚ
deriving DecidableEq

/-- Projection of a recommendation row to its price-independent fields. -/
def stripRow (r : Suggest.Row) : RowCore :=
  { name := r.name
  , median := r.median
  , rent_to_income := r.rent_to_income
  , transit := r.transit
  , distance_km := r.distance_km
  , score := r.score }

/-- Descending-by-score comparison on stripped rows. -/
def coreScoreGe (a b : RowCore) : Prop := b.score ≤ a.score

instance : DecidableRel coreScoreGe :=
  fun a b => inferInstanceAs (Decidable (b.score ≤ a.score))

/-- A recommender response with the price-dependent row fields erased. -/
inductive SuggestCore where
  | notFound (city : String)
  | internalError
  | success (city property_type source snapshot_month : String)
      (recs : List RowCore) (reason : Option String)
deriving DecidableEq

/-- Strip a recommender response down to its price-independent content. -/
def stripResult : Suggest.Result → SuggestCore
  | .notFound c => .notFound c
  | .internalError => .internalError
  | .success p => .success p.city p.property_type p.source p.snapshot_month
      (p.recommendations.map stripRow) p.reason

theorem whyOf_indep (prefs : Suggest.Prefs) (n : Nbhd) (d1 r1 d2 r2 : ℚ) :
    (∃ e, Suggest.whyOf prefs n d1 r1 = .error e ∧ Suggest.whyOf prefs n d2 r2 = .error e) ∨
    (∃ w1 w2, Suggest.whyOf prefs n d1 r1 = .ok w1 ∧ Suggest.whyOf prefs n d2 r2 = .ok w2) := by
  obtain ⟨pmd, pmt, ptg⟩ := prefs
  rcases pmt with _ | pmt
  on_goal 2 => rcases pmt with _ | mtq
  all_goals rcases ptg with _ | ptg
  all_goals try rcases ptg with _ | tgq
  all_goals
    first
      | exact Or.inl ⟨_, rfl, rfl⟩
      | exact Or.inr ⟨_, _, rfl, rfl⟩

theorem buildRows_strip (prefs : Suggest.Prefs) (maxD : ℚ) (minT : ℤ) (tg im : ℚ)
    (prop : String) (pr1 pr2 : ℚ) :
    ∀ ns : List Nbhd,
      (Suggest.buildRows prefs maxD minT tg im pr1 prop ns).map (List.map stripRow) =
      (Suggest.buildRows prefs maxD minT tg im pr2 prop ns).map (List.map stripRow) := by
  intro ns
  induction ns with
  | nil => rfl
  | cons n ns ih =>
    simp only [Suggest.buildRows]
    rcases hm : get_neighbourhood_median n prop with _ | med
    · simp only [hm]
      exact ih
    · simp only [hm]
      by_cases hfil : maxD < max 0 (n.distance_km.getD 0) ∨ get_neighbourhood_transit n 0 < minT
      · simp only [if_pos hfil]
        exact ih
      · simp only [if_neg hfil]
        by_cases hrti : tg < (if 0 < im then med / im else 10 ^ 9)
        · simp only [if_pos hrti]
          exact ih
        · simp only [if_neg hrti]
          rcases whyOf_indep prefs n (med - pr1) (if 0 < im then med / im else 10 ^ 9)
              (med - pr2) (if 0 < im then med / im else 10 ^ 9) with
            ⟨e, he1, he2⟩ | ⟨w1, w2, hw1, hw2⟩
          · simp only [he1, he2]
          · simp only [hw1, hw2]
            cases hr1 : Suggest.buildRows prefs maxD minT tg im pr1 prop ns with
            | error e1 =>
              cases hr2 : Suggest.buildRows prefs maxD minT tg im pr2 prop ns with
              | error e2 =>
                rw [hr1, hr2] at ih
                simp only [Except.map] at ih
                injection ih with ih2
                subst ih2
                simp only [Except.map]
              | ok rows2 =>
                rw [hr1, hr2] at ih
                simp only [Except.map] at ih
                exact Except.noConfusion ih
            | ok rows1 =>
              cases hr2 : Suggest.buildRows prefs maxD minT tg im pr2 prop ns with
              | error e2 =>
                rw [hr1, hr2] at ih
                simp only [Except.map] at ih
                exact Except.noConfusion ih
              | ok rows2 =>
                rw [hr1, hr2] at ih
                simp only [Except.map] at ih
                injection ih with ih2
                simp only [Except.map, List.map_cons]
                rw [ih2]
                rfl

theorem map_orderedInsert (a : Suggest.Row) (l : List Suggest.Row) :
    (List.orderedInsert Suggest.scoreGe a l).map stripRow =
      List.orderedInsert coreScoreGe (stripRow a) (l.map stripRow) := by
  induction l with
  | nil => rfl
  | cons b l ih =>
    by_cases hab : Suggest.scoreGe a b
    · rw [List.orderedInsert, if_pos hab, List.map_cons, List.map_cons, List.orderedInsert,
        if_pos (show coreScoreGe (stripRow a) (stripRow b) from hab)]
    · rw [List.orderedInsert, if_neg hab, List.map_cons, List.map_cons, List.orderedInsert,
        if_neg (show ¬coreScoreGe (stripRow a) (stripRow b) from hab), ih]

theorem map_insertionSort (l : List Suggest.Row) :
    (List.insertionSort Suggest.scoreGe l).map stripRow =
      List.insertionSort coreScoreGe (l.map stripRow) := by
  induction l with
  | nil => rfl
  | cons a l ih =>
    rw [List.insertionSort, List.map_cons, List.insertionSort, map_orderedInsert, ih]

/-- Claim C10: two recommender invocations that differ only in
`listing_price` and/or `budget_cap` return the same response up to the
price-dependent `rent_diff_vs_listing` and `why` fields — same status, same
neighbourhoods in the same order, with identical `median`, `rent_to_income`,
`transit`, `distance_km` and `score`. -/
theorem c10_price_invariance (ds : Dataset) (city pt : Option String) (inc : Option ℚ)
    (prefs : Option Suggest.Prefs) (lp1 bc1 lp2 bc2 : Option ℚ) :
    stripResult (Suggest.lambda_handler ds ⟨city, pt, inc, prefs, lp1, bc1⟩) =
      stripResult (Suggest.lambda_handler ds ⟨city, pt, inc, prefs, lp2, bc2⟩) := by
  simp only [Suggest.lambda_handler]
  cases hc : getCityObj ds (city_key (city.getD "Toronto")) with
  | none => rfl
  | some cobj =>
    dsimp only
    have hstrip := buildRows_strip (prefs.getD ⟨none, none, none⟩)
      (Suggest.effMaxDist (prefs.getD ⟨none, none, none⟩))
      (Suggest.effMinTransit (prefs.getD ⟨none, none, none⟩))
      (Suggest.effTargetRti (prefs.getD ⟨none, none, none⟩))
      (inc.getD 80000 / 12)
      (propNorm pt)
      (lp1.getD (bc1.getD (roundTo 2 (inc.getD 80000 / 12 *
          Suggest.effTargetRti (prefs.getD ⟨none, none, none⟩)))))
      (lp2.getD (bc2.getD (roundTo 2 (inc.getD 80000 / 12 *
          Suggest.effTargetRti (prefs.getD ⟨none, none, none⟩)))))
      (list_neighbourhoods ds (city_key (city.getD "Toronto")))
    set B1 := Suggest.buildRows (prefs.getD ⟨none, none, none⟩)
      (Suggest.effMaxDist (prefs.getD ⟨none, none, none⟩))
      (Suggest.effMinTransit (prefs.getD ⟨none, none, none⟩))
      (Suggest.effTargetRti (prefs.getD ⟨none, none, none⟩))
      (inc.getD 80000 / 12)
      (lp1.getD (bc1.getD (roundTo 2 (inc.getD 80000 / 12 *
          Suggest.effTargetRti (prefs.getD ⟨none, none, none⟩)))))
      (propNorm pt)
      (list_neighbourhoods ds (city_key (city.getD "Toronto"))) with hB1
    set B2 := Suggest.buildRows (prefs.getD ⟨none, none, none⟩)
      (Suggest.effMaxDist (prefs.getD ⟨none, none, none⟩))
      (Suggest.effMinTransit (prefs.getD ⟨none, none, none⟩))
      (Suggest.effTargetRti (prefs.getD ⟨none, none, none⟩))
      (inc.getD 80000 / 12)
      (lp2.getD (bc2.getD (roundTo 2 (inc.getD 80000 / 12 *
          Suggest.effTargetRti (prefs.getD ⟨none, none, none⟩)))))
      (propNorm pt)
      (list_neighbourhoods ds (city_key (city.getD "Toronto"))) with hB2
    clear_value B1 B2
    cases B1 with
    | error e1 =>
      cases B2 with
      | error e2 => rfl
      | ok rows2 =>
        simp only [Except.map] at hstrip
        exact Except.noConfusion hstrip
    | ok rows1 =>
      cases B2 with
      | error e2 =>
        simp only [Except.map] at hstrip
        exact Except.noConfusion hstrip
      | ok rows2 =>
        simp only [Except.map] at hstrip
        injection hstrip with hmap
        have hsort : (List.insertionSort Suggest.scoreGe rows1).map stripRow =
            (List.insertionSort Suggest.scoreGe rows2).map stripRow := by
          rw [map_insertionSort, map_insertionSort, hmap]
        have htake : ((List.insertionSort Suggest.scoreGe rows1).take 3).map stripRow =
            ((List.insertionSort Suggest.scoreGe rows2).take 3).map stripRow := by
          rw [List.map_take, List.map_take, hsort]
        have hempty : ((List.insertionSort Suggest.scoreGe rows1).take 3).isEmpty =
            ((List.insertionSort Suggest.scoreGe rows2).take 3).isEmpty := by
          rcases h1 : (List.insertionSort Suggest.scoreGe rows1).take 3 with _ | ⟨x, xs⟩ <;>
            rcases h2 : (List.insertionSort Suggest.scoreGe rows2).take 3 with _ | ⟨y, ys⟩ <;>
            rw [h1, h2] at htake <;> simp_all
        dsimp only
        simp only [stripResult]
        rw [htake, hempty]

/-- Witness for C10: on the concrete snapshot, changing `listing_price`
2000 into `budget_cap` 1500 leaves the stripped response unchanged. -/
theorem c10_witness :
    stripResult (Suggest.lambda_handler dsA
      ⟨some "Toronto", some "1bed", some 96000, none, some 2000, none⟩) =
      stripResult (Suggest.lambda_handler dsA
        ⟨some "Toronto", some "1bed", some 96000, none, none, some 1500⟩) :=
  c10_price_invariance dsA (some "Toronto") (some "1bed") (some 96000) none
    (some 2000) none none (some 1500)

/-- A one-city, one-neighbourhood snapshot: the only neighbourhood sits 20 km
out, with transit 90 and a 1bed median of 1800. -/
def dsB : Dataset :=
  { meta := { currency := some "CAD/month", snapshot_month := some "2025-06",
              version := some "static_json_v1" }
  , cities := [("Toronto",
      { medians := [("1bed", 2500)]
      , neighbourhoods :=
          [ { name := "Faraway", median := [("1bed", 1800)], transit := some 90,
              distance_km := some 20 } ] })] }

/-- Claim C5 counterexample: with `prefs` entirely absent, the recommender
still filters on distance — the 20 km neighbourhood passes the transit floor
(90 >= effective 65) and the ratio cap (1800/8000 <= 0.30) but is rejected by
the default-supplied `max_distance_km = 15`, so the recommendations list is
empty, although the claim says an absent preference disables that axis. -/
theorem c5_counterexample :
    Suggest.effMaxDist ⟨none, none, none⟩ = 15 ∧
    Suggest.effMinTransit ⟨none, none, none⟩ ≤ 90 ∧
    (1800 : ℚ) / (96000 / 12) ≤ Suggest.effTargetRti ⟨none, none, none⟩ ∧
    (15 : ℚ) < 20 ∧
    Suggest.recsOf (Suggest.lambda_handler dsB
      ⟨some "Toronto", some "1bed", some 96000, none, none, none⟩) = [] := by
  have hmax : Suggest.effMaxDist ⟨none, none, none⟩ = 15 := by
    simp only [Suggest.effMaxDist]
    norm_num [max_def]
  have hmt : Suggest.effMinTransit ⟨none, none, none⟩ = 65 := by
    simp only [Suggest.effMinTransit, pyInt]
    norm_num [max_def, min_def]
  refine ⟨hmax, by rw [hmt]; norm_num, ?_, by norm_num, ?_⟩
  · simp only [Suggest.effTargetRti]
    norm_num
  · have htr : get_neighbourhood_transit
        { name := "Faraway", median := [("1bed", 1800)], transit := some 90,
          distance_km := some 20 } 0 = 90 := by
      simp only [get_neighbourhood_transit, normalize_transit, Option.getD_some, rhe]
      norm_num [max_def, min_def]
    have hfil : Suggest.effMaxDist ⟨none, none, none⟩ <
        max 0 ((Option.some (20 : ℚ)).getD 0) ∨
        get_neighbourhood_transit
          { name := "Faraway", median := [("1bed", 1800)], transit := some 90,
            distance_km := some 20 } 0 < Suggest.effMinTransit ⟨none, none, none⟩ := by
      left
      rw [hmax]
      norm_num [max_def]
    have hbr : Suggest.buildRows ⟨none, none, none⟩
        (Suggest.effMaxDist ⟨none, none, none⟩) (Suggest.effMinTransit ⟨none, none, none⟩)
        (Suggest.effTargetRti ⟨none, none, none⟩) ((96000 : ℚ) / 12)
        (roundTo 2 (96000 / 12 * Suggest.effTargetRti ⟨none, none, none⟩))
        "1bed"
        [{ name := "Faraway", median := [("1bed", 1800)], transit := some 90,
           distance_km := some 20 }] = .ok [] := by
      simp only [Suggest.buildRows,
        show get_neighbourhood_median
          { name := "Faraway", median := [("1bed", 1800)], transit := some 90,
            distance_km := some 20 } "1bed" = some 1800 from rfl]
      rw [if_pos hfil]
    simp only [Suggest.lambda_handler, Suggest.recsOf, Option.getD_some, Option.getD_none,
      show getCityObj dsB (city_key "Toronto") =
        some { medians := [("1bed", 2500)]
             , neighbourhoods :=
                 [{ name := "Faraway", median := [("1bed", 1800)], transit := some 90,
                    distance_km := some 20 }] } from rfl,
      show list_neighbourhoods dsB (city_key "Toronto") =
        [{ name := "Faraway", median := [("1bed", 1800)], transit := some 90,
           distance_km := some 20 }] from rfl,
      show propNorm (some "1bed") = "1bed" from rfl]
    rw [hbr]
    rfl

/-- Claim C5, amended: in the orchestrator's `_normalize_prefs` an explicit
null does remove a default-supplied preference key entirely; but the
recommender itself does not treat absent (or null) preferences as disabled
constraints — it substitutes fixed defaults (`max_distance_km` 15.0 and
`target_rent_to_income` 0.30 for both absent and null, `min_transit` 65 when
absent), and only an explicit null `min_transit` degrades to 0, which alone
disables the transit floor. -/
theorem c5_amended (u1 u2 u3 : Option (Option ℚ)) :
    (Agent.normalize_prefs ⟨some none, u2, u3⟩).max_distance_km = none ∧
    (Agent.normalize_prefs ⟨u1, some none, u3⟩).min_transit = none ∧
    (Agent.normalize_prefs ⟨u1, u2, some none⟩).target_rent_to_income = none ∧
    Suggest.effMaxDist ⟨none, u2, u3⟩ = 15 ∧
    Suggest.effMaxDist ⟨some none, u2, u3⟩ = 15 ∧
    Suggest.effMinTransit ⟨u1, none, u3⟩ = 65 ∧
    Suggest.effMinTransit ⟨u1, some none, u3⟩ = 0 ∧
    Suggest.effTargetRti ⟨u1, u2, none⟩ = 3/10 ∧
    Suggest.effTargetRti ⟨u1, u2, some none⟩ = 3/10 := by
  refine ⟨rfl, rfl, rfl, ?_, ?_, ?_, ?_, rfl, rfl⟩
  · simp only [Suggest.effMaxDist]
    norm_num [max_def]
  · simp only [Suggest.effMaxDist]
    norm_num [max_def]
  · simp only [Suggest.effMinTransit, pyInt]
    norm_num [max_def, min_def]
  · simp only [Suggest.effMinTransit, pyInt]
    norm_num [max_def, min_def]

/-- Witness for the amended C5 with all other preference keys absent. -/
theorem c5_witness :
    (Agent.normalize_prefs ⟨some none, none, none⟩).max_distance_km = none ∧
    (Agent.normalize_prefs ⟨none, some none, none⟩).min_transit = none ∧
    (Agent.normalize_prefs ⟨none, none, some none⟩).target_rent_to_income = none ∧
    Suggest.effMaxDist ⟨none, none, none⟩ = 15 ∧
    Suggest.effMaxDist ⟨some none, none, none⟩ = 15 ∧
    Suggest.effMinTransit ⟨none, none, none⟩ = 65 ∧
    Suggest.effMinTransit ⟨none, some none, none⟩ = 0 ∧
    Suggest.effTargetRti ⟨none, none, none⟩ = 3/10 ∧
    Suggest.effTargetRti ⟨none, none, some none⟩ = 3/10 :=
  c5_amended none none none

/-- Claim C6 (code bug): in strict mode the verifier raises instead of
degrading — an envelope whose `actions` list contains a dict without a
`"tool"` key makes `actions[0]["tool"]` raise `KeyError` before any guarded
code runs, so `_local_verify` propagates an exception rather than returning a
dict. -/
theorem c6_verify_raises :
    Agent.local_verify true true [("actions", .arr [.obj []])] =
      .error Suggest.PyErr.keyError := rfl

/-- Claim C3 counterexample: the verifier reads the tool of the *first*
action, not the last.  On an envelope whose last issued tool is the
Recommender, whose first is `get_rent_data`, and whose answer carries zero
recommendations, strict verification returns the `{ok: true}` passthrough
rather than an `ok:false` no-matches failure. -/
theorem c3_counterexample :
    Agent.lastActionTool
      [("actions", .arr [.obj [("tool", .str "get_rent_data")],
        .obj [("tool", .str "suggest_neighbourhoods")]]),
       ("answer", .obj [("message", .str "hi")])] =
      some (.str "suggest_neighbourhoods") ∧
    Agent.jTruthy (Agent.locateRecs
      [("actions", .arr [.obj [("tool", .str "get_rent_data")],
        .obj [("tool", .str "suggest_neighbourhoods")]]),
       ("answer", .obj [("message", .str "hi")])]
      (.obj [("message", .str "hi")])) = false ∧
    Agent.local_verify true true
      [("actions", .arr [.obj [("tool", .str "get_rent_data")],
        .obj [("tool", .str "suggest_neighbourhoods")]]),
       ("answer", .obj [("message", .str "hi")])] =
      .ok (.passthrough Agent.okTrue) :=
  ⟨rfl, rfl, rfl⟩

/-- Claim C4 counterexample: the budget-mismatch rule is guarded by
`0 < target_ratio < 1`.  With `target_ratio = 2`, `listing_price = 6000`
exceeds `(income_annual/12) * (target_ratio * 1.25) = 5000`, yet strict
verification returns the `{ok: true}` passthrough instead of failing. -/
theorem c4_counterexample :
    (24000 / 12 : ℚ) * (2 * (5/4)) < 6000 ∧
    Agent.local_verify true true
      [("answer", .obj [("listing_price", .num 6000), ("income_annual", .num 24000),
        ("target_ratio", .num 2)])] = .ok (.passthrough Agent.okTrue) := by
  refine ⟨by norm_num, rfl⟩

/-- Claim C4, amended: in strict mode, for every result envelope whose first
action is not the Recommender and whose answer carries numeric
`listing_price`, `income_annual` and `target_ratio` fields with
`0 < target_ratio < 1` and
`listing_price > (income_annual/12) * (target_ratio * 1.25)`, the verifier
fails with the budget-mismatch note. -/
theorem c4_budget_mismatch (hints : Bool) (acts vv : Agent.JVal)
    (af : List (String × Agent.JVal)) (ft : Option Agent.JVal) (lp inc tgt : ℚ)
    (hft : Agent.firstTool (Agent.pyOr (some acts) (.arr [])) = .ok ft)
    (hsugg : Agent.isSuggestTool ft = false)
    (hlp : Agent.jGet af "listing_price" = some (.num lp))
    (hinc : Agent.jGet af "income_annual" = some (.num inc))
    (htgt : Agent.jGet af "target_ratio" = some (.num tgt))
    (h0 : 0 < tgt) (h1 : tgt < 1)
    (hgt : inc / 12 * (tgt * (5/4)) < lp) :
    Agent.local_verify true hints
      [("actions", acts), ("verify", vv), ("answer", .obj af)] =
      .ok .budgetMismatch := by
  have hne : af.isEmpty = false := by
    cases af with
    | nil => exact absurd hlp (by simp [Agent.jGet, dlookup])
    | cons x xs => rfl
  have hans : Agent.pyOr (some (Agent.JVal.obj af)) (.obj []) = .obj af := by
    simp [Agent.pyOr, Agent.jTruthy, hne]
  have hbc : Agent.budgetCheck (.obj af) = true := by
    simp only [Agent.budgetCheck, hlp, hinc, htgt, Agent.isNull, Agent.jNum,
      Bool.or_self, Bool.false_eq_true, if_false]
    rw [if_pos ⟨h0, h1⟩]
    simp only [decide_eq_true_eq]
    exact hgt
  simp only [Agent.local_verify, Bool.not_true, Bool.false_eq_true, if_false,
    show Agent.jGet [("actions", acts), ("verify", vv), ("answer", .obj af)] "verify" =
      some vv from rfl,
    show Agent.jGet [("actions", acts), ("verify", vv), ("answer", .obj af)] "answer" =
      some (.obj af) from rfl,
    show Agent.jGet [("actions", acts), ("verify", vv), ("answer", .obj af)] "actions" =
      some acts from rfl,
    hans, hft, hsugg, hbc]
  simp

/-- Witness for the amended C4 at the spec's example
`listing_price = 3000, income_annual = 24000, target_ratio = 0.30`
(monthly income 2000, threshold 750, 3000 > 750). -/
theorem c4_witness :
    Agent.local_verify true true
      [("actions", .arr [.obj [("tool", .str "get_rent_data")]]), ("verify", .null),
       ("answer", .obj [("listing_price", .num 3000), ("income_annual", .num 24000),
         ("target_ratio", .num (3/10))])] = .ok .budgetMismatch :=
  c4_budget_mismatch true (.arr [.obj [("tool", .str "get_rent_data")]]) .null
    [("listing_price", .num 3000), ("income_annual", .num 24000),
     ("target_ratio", .num (3/10))]
    (some (.str "get_rent_data")) 3000 24000 (3/10)
    rfl rfl rfl rfl rfl (by norm_num) (by norm_num) (by norm_num)

/-- Envelope shape for the amended C3: the first action is the Recommender,
`verify`/extra actions/extra answer fields are arbitrary, and the prefs used
by the tools sit in `tool_result.args.prefs` with numeric values. -/
def c3Env (arest : List (String × Agent.JVal)) (tacts : List Agent.JVal)
    (vv : Agent.JVal) (af : List (String × Agent.JVal)) (md mt tri : ℚ) :
    List (String × Agent.JVal) :=
  [("actions", .arr (.obj (("tool", .str "suggest_neighbourhoods") :: arest) :: tacts)),
   ("verify", vv), ("answer", .obj af),
   ("tool_result", .obj [("args", .obj [("prefs", .obj
     [("max_distance_km", .num md), ("min_transit", .num mt),
      ("target_rent_to_income", .num tri)])])])]

/-- The hint list `_local_verify` computes for a fully-numeric prefs dict
(established by `c3_first_tool_no_matches`, not assumed): each hint fires only
when its preference is currently restrictive, and proposes `+3` distance,
`-5` transit clamped at 0, `+0.03` ratio clamped at 0.4. -/
def c3Hints (md mt tri : ℚ) : List Agent.Hint :=
  (if md ≤ 12 then [Agent.Hint.maxDist md (md + 3)] else []) ++
  (if 60 ≤ mt then [Agent.Hint.minTransit mt (max (mt - 5) 0)] else []) ++
  (if tri ≤ 3/10 then [Agent.Hint.targetRti tri (min (tri + 3/100) (4/10))] else [])

theorem hintMaxDist_num (pf : List (String × Agent.JVal)) (md : ℚ)
    (h : Agent.jGet pf "max_distance_km" = some (.num md)) :
    Agent.hintMaxDist pf = .ok (if md ≤ 12 then [Agent.Hint.maxDist md (md + 3)] else []) := by
  simp only [Agent.hintMaxDist, h, Agent.jLe, Agent.jNum]
  by_cases hc : md ≤ 12
  · simp [hc]
  · simp [hc]

theorem hintMinTransit_num (pf : List (String × Agent.JVal)) (mt : ℚ)
    (h : Agent.jGet pf "min_transit" = some (.num mt)) :
    Agent.hintMinTransit pf =
      .ok (if 60 ≤ mt then [Agent.Hint.minTransit mt (max (mt - 5) 0)] else []) := by
  simp only [Agent.hintMinTransit, h, Agent.jGe, Agent.jNum]
  by_cases hc : 60 ≤ mt
  · simp [hc]
  · simp [hc]

theorem hintTargetRti_num (pf : List (String × Agent.JVal)) (tri : ℚ)
    (h : Agent.jGet pf "target_rent_to_income" = some (.num tri)) :
    Agent.hintTargetRti pf =
      .ok (if tri ≤ 3/10 then [Agent.Hint.targetRti tri (min (tri + 3/100) (4/10))] else []) := by
  simp only [Agent.hintTargetRti, h, Agent.jLe, Agent.jNum]
  by_cases hc : tri ≤ 3/10
  · simp [hc]
  · simp [hc]

theorem mkHints_num (md mt tri : ℚ) :
    Agent.mkHints (.obj [("max_distance_km", .num md), ("min_transit", .num mt),
      ("target_rent_to_income", .num tri)]) = .ok (c3Hints md mt tri) := by
  have h1 := hintMaxDist_num [("max_distance_km", Agent.JVal.num md),
    ("min_transit", Agent.JVal.num mt), ("target_rent_to_income", Agent.JVal.num tri)] md rfl
  have h2 := hintMinTransit_num [("max_distance_km", Agent.JVal.num md),
    ("min_transit", Agent.JVal.num mt), ("target_rent_to_income", Agent.JVal.num tri)] mt rfl
  have h3 := hintTargetRti_num [("max_distance_km", Agent.JVal.num md),
    ("min_transit", Agent.JVal.num mt), ("target_rent_to_income", Agent.JVal.num tri)] tri rfl
  simp only [Agent.mkHints, h1, h2, h3, c3Hints]

/-- Claim C3, amended: the rule keys on the *first* listed action, not the
last issued tool.  In strict mode with hints enabled, for every envelope whose
first action's tool is the Recommender, whose (non-empty) answer object
carries no truthy recommendations, and whose tool_result carries numeric
prefs, the verifier returns the no-matches failure with at most two
preference-relaxation hints (`max_distance_km + 3`, `min_transit - 5` clamped
at 0, `target_rent_to_income + 0.03` clamped at 0.4). -/
theorem c3_first_tool_no_matches (arest : List (String × Agent.JVal))
    (tacts : List Agent.JVal) (vv : Agent.JVal) (af : List (String × Agent.JVal))
    (md mt tri : ℚ)
    (haf : af.isEmpty = false)
    (hrec : Agent.jTruthy (Agent.pyOr (Agent.jGet af "recommendations") (.arr [])) = false) :
    Agent.local_verify true true (c3Env arest tacts vv af md mt tri) =
      .ok (.noMatches ((c3Hints md mt tri).take 2)) ∧
    ((c3Hints md mt tri).take 2).length ≤ 2 ∧
    ∀ h ∈ (c3Hints md mt tri).take 2,
      h = Agent.Hint.maxDist md (md + 3) ∨
      h = Agent.Hint.minTransit mt (max (mt - 5) 0) ∨
      h = Agent.Hint.targetRti tri (min (tri + 3/100) (4/10)) := by
  have hans : Agent.pyOr (some (Agent.JVal.obj af)) (.obj []) = .obj af := by
    simp [Agent.pyOr, Agent.jTruthy, haf]
  have hprefs : Agent.locatePrefs (c3Env arest tacts vv af md mt tri) (.obj af) =
      .obj [("max_distance_km", .num md), ("min_transit", .num mt),
        ("target_rent_to_income", .num tri)] := rfl
  have hrecs : Agent.jTruthy
      (Agent.locateRecs (c3Env arest tacts vv af md mt tri) (.obj af)) = false := by
    simp only [Agent.locateRecs,
      show Agent.jGet (c3Env arest tacts vv af md mt tri) "tool_result" =
        some (.obj [("args", .obj [("prefs", .obj
          [("max_distance_km", .num md), ("min_transit", .num mt),
           ("target_rent_to_income", .num tri)])])]) from rfl,
      hrec]
    rfl
  refine ⟨?_, ?_, ?_⟩
  · simp only [Agent.local_verify, Bool.not_true, Bool.false_eq_true, if_false,
      show Agent.jGet (c3Env arest tacts vv af md mt tri) "verify" = some vv from rfl,
      show Agent.jGet (c3Env arest tacts vv af md mt tri) "answer" =
        some (.obj af) from rfl,
      show Agent.jGet (c3Env arest tacts vv af md mt tri) "actions" =
        some (.arr (.obj (("tool", .str "suggest_neighbourhoods") :: arest) :: tacts))
        from rfl,
      hans,
      show Agent.firstTool (Agent.pyOr (some (.arr (.obj (("tool",
        .str "suggest_neighbourhoods") :: arest) :: tacts))) (.arr [])) =
        .ok (some (.str "suggest_neighbourhoods")) from rfl,
      show Agent.isSuggestTool (some (.str "suggest_neighbourhoods")) = true from rfl,
      hprefs, hrecs, mkHints_num md mt tri]
    simp
  · rw [List.length_take]
    exact min_le_left 2 _
  · intro h hh
    have hL := List.take_subset 2 _ hh
    simp only [c3Hints] at hL
    rcases List.mem_append.mp hL with h12 | h3
    · rcases List.mem_append.mp h12 with h1 | h2
      · left
        by_cases hc : md ≤ 12
        · rw [if_pos hc] at h1
          simpa using h1
        · rw [if_neg hc] at h1
          simp at h1
      · right; left
        by_cases hc : 60 ≤ mt
        · rw [if_pos hc] at h2
          simpa using h2
        · rw [if_neg hc] at h2
          simp at h2
    · right; right
      by_cases hc : tri ≤ 3/10
      · rw [if_pos hc] at h3
        simpa using h3
      · rw [if_neg hc] at h3
        simp at h3

/-- Witness for the amended C3 at a concrete empty-result envelope with
prefs `(12, 65, 0.30)`. -/
theorem c3_witness :
    Agent.local_verify true true
      (c3Env [] [] .null [("summary", .str "no matches")] 12 65 (3/10)) =
      .ok (.noMatches ((c3Hints 12 65 (3/10)).take 2)) ∧
    ((c3Hints 12 65 (3/10)).take 2).length ≤ 2 ∧
    ∀ h ∈ (c3Hints 12 65 (3/10)).take 2,
      h = Agent.Hint.maxDist 12 (12 + 3) ∨
      h = Agent.Hint.minTransit 65 (max (65 - 5) 0) ∨
      h = Agent.Hint.targetRti (3/10) (min (3/10 + 3/100) (4/10)) :=
  c3_first_tool_no_matches [] [] .null [("summary", .str "no matches")] 12 65 (3/10)
    rfl rfl

end RentPilot
